import Mathlib

/-!
Shallow embedding of the StarRocks lake-tablet primary-key publish pipeline
and of the block cache, as exercised by
`src/be/test/storage/lake/primary_key_publish_test.cpp`,
`src/be/test/block_cache/block_cache_test.cpp` and declared in
`src/be/src/storage/lake/meta_file.h`.

The repository fragments contain only the tests and the `MetaFileBuilder`
header; the implementations of the publish coordinator, update manager and
block cache are not under `src/`.  Those operations are therefore modelled
from the specification (spec.md sections 3 to 7), faithful to its words, and
the concrete test scenarios are replayed against the model.
-/

/-- Status codes surfaced to callers (spec section 6). -/
inductive Status where
  | ok
  | notFound
  | alreadyExists
  | ioError
  | corruption
  | invalidArgument
deriving DecidableEq, Repr

/-- Result of a fallible operation: a value or an error status,
mirroring the C++ `StatusOr`. -/
inductive StatusOr (α : Type) where
  | ok (v : α)
  | err (s : Status)
deriving DecidableEq, Repr

/-- One row of the test schema (c0 INT key, c1 INT value). -/
structure Row where
  key : Int
  val : Int
deriving DecidableEq, Repr

/-- A segment: a file of rows, addressed by row id (list index). -/
abbrev Segment := List Row

/-- Segment identifier within a tablet: (rowset id, segment index).
The spec calls the segment-level identifier `rssid`; the tuple
(rssid, row id) is globally unique within a tablet (spec section 3). -/
abbrev SegId := Nat × Nat

/-- Rowset: an atomic unit added by one transaction (spec section 3). -/
structure Rowset where
  id : Nat
  segments : List Segment
  num_rows : Nat
  data_size : Nat
  overlapped : Bool
deriving DecidableEq, Repr

/-- Tablet metadata snapshot at one version (spec section 3): tablet id,
version, `next_rowset_id`, ordered rowsets, and per-segment delete vectors
(sets of deleted row ids), addressed by segment id. -/
structure TabletMetadata where
  id : Nat
  version : Nat
  next_rowset_id : Nat
  rowsets : List Rowset
  delvecs : List (SegId × List Nat)
deriving DecidableEq, Repr

/-- Write transaction log payload `OpWrite` (spec section 3): the new
rowset's segments plus its statistics. -/
structure OpWrite where
  segments : List Segment
  num_rows : Nat
  data_size : Nat
  overlapped : Bool
deriving DecidableEq, Repr

/-- Location of a row: (segment id, row id). -/
abbrev Loc := SegId × Nat

/-- Primary-key index: key bytes to location map plus the watermark
version (spec section 4.5). -/
structure PkIndex where
  entries : List (Int × Loc)
  watermark : Nat
deriving DecidableEq, Repr

/-- Cached primary-key index entry: the index and its reference count
(one reference is held by the cache itself; spec section 4.5). -/
structure PkCacheEntry where
  index : PkIndex
  refcnt : Nat
deriving DecidableEq, Repr

/-- Modelled from the spec: durable plus cached state of one tablet, the
part of the Tablet Metadata Store, txn-log store and PK index cache that
the publish coordinator touches (spec sections 4.2, 4.5, 4.7); the stores'
implementations are not under `src/`.  `metas` holds the dense version
sequence 1..current in order. -/
structure TabletState where
  metas : List TabletMetadata
  txnLogs : List (Nat × OpWrite)
  pkCache : Option PkCacheEntry
deriving DecidableEq, Repr

/-- Current published version of the tablet: versions are dense from 1. -/
def currentVersion (s : TabletState) : Nat := s.metas.length

/-- Read the metadata snapshot at a version, `NotFound` as `none`. -/
def getMeta (s : TabletState) (v : Nat) : Option TabletMetadata :=
  s.metas.find? (fun m => m.version = v)

/-- Read a txn log by transaction id. -/
def txnLookup (s : TabletState) (t : Nat) : Option OpWrite :=
  (s.txnLogs.find? (fun e => e.1 = t)).map (fun e => e.2)

/-- Lookup a key in the PK index entries. -/
def pkLookup (es : List (Int × Loc)) (k : Int) : Option Loc :=
  (es.find? (fun e => e.1 = k)).map (fun e => e.2)

/-- Upsert into the PK index entries: insert or replace; when replaced,
also return the prior location (spec section 4.5 `upsert`). -/
def pkUpsert (es : List (Int × Loc)) (k : Int) (l : Loc) :
    List (Int × Loc) × Option Loc :=
  match pkLookup es k with
  | some old => (es.map (fun e => if e.1 = k then (k, l) else e), some old)
  | none => (es ++ [(k, l)], none)

/-- Record one deleted row id into the per-segment delete-vector buffer. -/
def addDelete (dels : List (SegId × List Nat)) (sid : SegId) (rid : Nat) :
    List (SegId × List Nat) :=
  match dels.find? (fun d => d.1 = sid) with
  | some _ => dels.map (fun d => if d.1 = sid then (d.1, d.2 ++ [rid]) else d)
  | none => dels ++ [(sid, [rid])]

/-- Upsert all rows of one segment in row-id order, accumulating the prior
locations of overwritten keys into the delete buffer (spec section 4.6
steps 2 and 3). -/
def upsertRows (es : List (Int × Loc)) (dels : List (SegId × List Nat))
    (sid : SegId) (rid : Nat) : List Row → List (Int × Loc) × List (SegId × List Nat)
  | [] => (es, dels)
  | row :: rest =>
    let r := pkUpsert es row.key (sid, rid)
    let dels2 := match r.2 with
      | some old => addDelete dels old.1 old.2
      | none => dels
    upsertRows r.1 dels2 sid (rid + 1) rest

/-- Upsert the segments of one `OpWrite` in segment order, then row order
(spec section 4.6: ordering of upserts). -/
def upsertSegments (es : List (Int × Loc)) (dels : List (SegId × List Nat))
    (rsid : Nat) (j : Nat) : List Segment → List (Int × Loc) × List (SegId × List Nat)
  | [] => (es, dels)
  | seg :: rest =>
    let r := upsertRows es dels (rsid, j) 0 seg
    upsertSegments r.1 r.2 rsid (j + 1) rest

/-- Delete vector of one segment recorded in a metadata snapshot. -/
def delvecOf (m : TabletMetadata) (sid : SegId) : List Nat :=
  ((m.delvecs.find? (fun d => d.1 = sid)).map (fun d => d.2)).getD []

/-- Live rows of one segment: rows whose row id is not in the delete
vector (spec section 3: live rows invariant). -/
def liveSegRows (dv : List Nat) (rows : Segment) : List Row :=
  (rows.enum.filter (fun p => ¬ (p.1 ∈ dv))).map (fun p => p.2)

/-- All live rows of a metadata snapshot, in rowset then segment order. -/
def liveRows (m : TabletMetadata) : List Row :=
  m.rowsets.flatMap (fun rs =>
    rs.segments.enum.flatMap (fun sj => liveSegRows (delvecOf m (rs.id, sj.1)) sj.2))

/-- Insert a row into a key-sorted list keeping ascending key order. -/
def insertByKey (r : Row) : List Row → List Row
  | [] => [r]
  | x :: xs => if r.key ≤ x.key then r :: x :: xs else x :: insertByKey r xs

/-- Sort rows by primary key ascending (a primary-key tablet reader merges
by key). -/
def sortByKey (rs : List Row) : List Row := rs.foldr insertByKey []

/-- Modelled from the spec: reading the tablet at a version returns the
live rows in ascending key order (spec sections 3 and 5); the tablet
reader implementation is not under `src/`. -/
def readVersion (s : TabletState) (v : Nat) : Option (List Row) :=
  (getMeta s v).map (fun m => sortByKey (liveRows m))

/-- Rebuild the PK index entries by scanning all live rows of a metadata
snapshot (spec section 4.5 `get_or_load`, load path). -/
def pkLoadEntries (m : TabletMetadata) : List (Int × Loc) :=
  m.rowsets.flatMap (fun rs =>
    rs.segments.enum.flatMap (fun sj =>
      (sj.2.enum.filter (fun p => ¬ (p.1 ∈ delvecOf m (rs.id, sj.1)))).map
        (fun p => (p.2.key, ((rs.id, sj.1), p.1)))))

/-- Modelled from the spec: `get_or_load` of the PK index cache
(spec section 4.5): reuse the cached entry when its watermark covers the
requested version, else load by scanning live rows. -/
def getOrLoadIndex (s : TabletState) (bm : TabletMetadata) : PkIndex :=
  match s.pkCache with
  | some e => if bm.version ≤ e.index.watermark then e.index
              else { entries := pkLoadEntries bm, watermark := bm.version }
  | none => { entries := pkLoadEntries bm, watermark := bm.version }

/-- Merge the publish's delete-vector additions into the base snapshot's
delete vectors, per segment as set union (spec sections 4.3 and 4.6
step 4: write-path delete vectors merge). -/
def mergeDelvecs (base adds : List (SegId × List Nat)) : List (SegId × List Nat) :=
  adds.foldl (fun acc d => d.2.foldl (fun a rid => addDelete a d.1 rid) acc) base

/-- Per-rowset contribution to the compaction score. -/
def rowsetScore (rs : Rowset) : Int :=
  if rs.overlapped then (rs.segments.length : Int) else 1

/-- Modelled from the spec: the compaction score returned by a successful
publish, a scalar derived from rowset count and overlap
(spec section 4.7 step 8); the scorer implementation is not under `src/`. -/
def compactionScore (m : TabletMetadata) : Int :=
  (m.rowsets.map rowsetScore).sum

/-- The next metadata snapshot produced by applying one `OpWrite` on top of
a base snapshot: run the update manager's upserts against the acquired
index, append the new rowset with id `next_rowset_id`, bump
`next_rowset_id`, and merge the produced delete vectors
(spec sections 4.3, 4.6, 4.7 steps 5 and 6). -/
def doPublishMeta (s : TabletState) (bm : TabletMetadata) (op : OpWrite)
    (nv : Nat) : TabletMetadata :=
  let idx := getOrLoadIndex s bm
  let rsid := bm.next_rowset_id
  let ud := upsertSegments idx.entries [] rsid 0 op.segments
  { bm with
    version := nv
    next_rowset_id := rsid + 1
    rowsets := bm.rowsets ++ [{ id := rsid, segments := op.segments,
                                num_rows := op.num_rows, data_size := op.data_size,
                                overlapped := op.overlapped }]
    delvecs := mergeDelvecs bm.delvecs ud.2 }

/-- Successful fresh-publish step: finalize the new snapshot, delete the
consumed txn log, advance the PK index watermark and return the compaction
score (spec section 4.7 steps 5 to 8). -/
def doPublish (s : TabletState) (bm : TabletMetadata) (op : OpWrite)
    (nv t : Nat) : StatusOr Int × TabletState :=
  let newMeta := doPublishMeta s bm op nv
  let ud := upsertSegments (getOrLoadIndex s bm).entries [] bm.next_rowset_id 0 op.segments
  (StatusOr.ok (compactionScore newMeta),
   { metas := s.metas ++ [newMeta]
     txnLogs := s.txnLogs.filter (fun e => ¬ (e.1 = t))
     pkCache := some { index := { entries := ud.1, watermark := nv }, refcnt := 1 } })

/-- Modelled from the spec: the publish coordinator
`publish_version(tablet, base_version, new_version, txn_ids)` for a single
write transaction (spec section 4.7); the coordinator implementation is not
under `src/`.  Precondition `new_version = base_version + 1`; an already
existing `new_version` is an idempotent re-publish or historical replay
returning success without work (steps 2 and 3); `base_version` beyond the
current version fails `NotFound` (step 4); otherwise the txn log is read
and applied. -/
def publish_version (s : TabletState) (base newv txn : Nat) :
    StatusOr Int × TabletState :=
  if newv = base + 1 then
    if newv ≤ currentVersion s then
      match getMeta s newv with
      | some m => (StatusOr.ok (compactionScore m), s)
      | none => (StatusOr.err Status.notFound, s)
    else if currentVersion s < base then (StatusOr.err Status.notFound, s)
    else
      match getMeta s base, txnLookup s txn with
      | some bm, some op => doPublish s bm op newv txn
      | _, _ => (StatusOr.err Status.notFound, s)
  else (StatusOr.err Status.invalidArgument, s)

/-- Modelled from the spec: the delta writer's `finish()`, which
materializes one segment from the written chunk and persists a write txn
log (spec section 4.8); the delta writer implementation is not under
`src/`. -/
def deltaWrite (s : TabletState) (txn : Nat) (rows : List Row) : TabletState :=
  { s with txnLogs := s.txnLogs ++
      [(txn, { segments := [rows], num_rows := rows.length,
               data_size := 8 * rows.length, overlapped := false })] }

/-- Write one chunk and publish it from the current version, returning the
publish result and the next state (the tests' write-then-publish loop). -/
def publishAfterWrite (s : TabletState) (txn : Nat) (rows : List Row) :
    StatusOr Int × TabletState :=
  let s1 := deltaWrite s txn rows
  publish_version s1 (currentVersion s1) (currentVersion s1 + 1) txn

/-- State after one write-and-publish round. -/
def writeAndPublish (s : TabletState) (txn : Nat) (rows : List Row) : TabletState :=
  (publishAfterWrite s txn rows).2

/-- `MetaFileBuilder::handle_failure` (meta_file.h line 48): when apply or
finalize fail, clear the tablet's primary-index cache entry so retries
reload from durable state (spec sections 4.3 and 4.7 step 9). -/
def handle_failure (s : TabletState) : TabletState :=
  { s with pkCache := none }

/-- The failed-publish prefix replayed by `test_write_fail_retry` lines
308 to 318: load the txn log, clone the current snapshot with the version
bumped, and run the update manager's `publish_primary_key_tablet`, which
mutates the cached PK index; finalize is never called so the durable state
is untouched. -/
def runUpdateMgrOnClone (s : TabletState) (txn : Nat) : TabletState :=
  match getMeta s (currentVersion s), txnLookup s txn with
  | some bm, some op =>
    let idx := getOrLoadIndex s bm
    let ud := upsertSegments idx.entries [] bm.next_rowset_id 0 op.segments
    { s with pkCache := some { index := { entries := ud.1, watermark := idx.watermark },
                               refcnt := 1 } }
  | _, _ => s

/-- The simulated failure of `test_write_fail_retry` lines 300 to 321:
write the chunk, mutate the PK index against a cloned metadata, then call
`handle_failure()` without finalizing. -/
def writeFailRun (s : TabletState) (txn : Nat) (rows : List Row) : TabletState :=
  handle_failure (runUpdateMgrOnClone (deltaWrite s txn rows) txn)

/-- Initial tablet metadata as built by the test fixture (version 1,
`next_rowset_id` 1, no rowsets). -/
def initMeta (tid : Nat) : TabletMetadata :=
  { id := tid, version := 1, next_rowset_id := 1, rowsets := [], delvecs := [] }

/-- Initial tablet state: version-1 metadata persisted, no logs, cold PK
index cache. -/
def initState (tid : Nat) : TabletState :=
  { metas := [initMeta tid], txnLogs := [], pkCache := none }

/-- The test generator `generate_data(kChunkSize, shift)`: keys
`shift*12 + i` for `i < 12` with values `3*key` (the in-chunk shuffle does
not affect any published set or count and is omitted). -/
def chunkData (shift : Nat) : List Row :=
  (List.range 12).map (fun i =>
    { key := (shift * 12 + i : Nat), val := 3 * ((shift * 12 + i : Nat) : Int) })

/-- Reference count visible to `TEST_check_primary_index_cache_ref`. -/
def pkCacheRef (s : TabletState) : Nat :=
  match s.pkCache with
  | some e => e.refcnt
  | none => 0

/-- State after the three write-and-publish rounds shared by several tests
(txn ids 1232, 1233, 1234 as produced by the fixture's counter). -/
def state3 : TabletState :=
  writeAndPublish (writeAndPublish (writeAndPublish (initState 100)
    1232 (chunkData 0)) 1233 (chunkData 0)) 1234 (chunkData 0)

/-- Strictly-ascending check on a key list. -/
def sortedStrict : List Int → Bool
  | [] => true
  | [_] => true
  | a :: b :: rest => a < b && sortedStrict (b :: rest)

/-- Is a publish result a success. -/
def isOk : StatusOr Int → Bool
  | StatusOr.ok _ => true
  | StatusOr.err _ => false

/-- The explicit chunk of `test_write_read_success`: keys 1..22 with values
`2*k` except `21 maps to 41` and `22 maps to 44`. -/
def chunk22 : List Row :=
  (List.range 22).map (fun i =>
    let k : Int := (i : Int) + 1
    { key := k, val := if k = 21 then 41 else if k = 22 then 44 else 2 * k })

/-- Result and state of the single write-and-publish of
`test_write_read_success` (txn id 1231, publish 1 to 2). -/
def state22 : StatusOr Int × TabletState :=
  publishAfterWrite (initState 100) 1231 chunk22

/-- The three successful batches of `test_write_fail_retry`: distinct
chunks `generate_data(12, i)` for `i = 0, 1, 2`, txn ids 1232 to 1234. -/
def stateFailBase : TabletState :=
  writeAndPublish (writeAndPublish (writeAndPublish (initState 100)
    1232 (chunkData 0)) 1233 (chunkData 1)) 1234 (chunkData 2)

/-- State after the two simulated failures of `test_write_fail_retry`
(chunks 3 and 4 with txn ids 1235 and 1236, each run through the update
manager and then `handle_failure`). -/
def stateFail : TabletState :=
  writeFailRun (writeFailRun stateFailBase 1235 (chunkData 3)) 1236 (chunkData 4)

/-- Final state of `test_write_fail_retry`: after the failures, chunks 3
and 4 are re-written with fresh txn ids 1237 and 1238 and published through
the full path (versions 4 to 5 and 5 to 6). -/
def stateRetry : TabletState :=
  writeAndPublish (writeAndPublish stateFail 1237 (chunkData 3)) 1238 (chunkData 4)

/-- The same five chunks published with no failure in between: the
reference run for the failure-recovery comparison. -/
def stateClean : TabletState :=
  writeAndPublish (writeAndPublish (writeAndPublish (writeAndPublish
    (writeAndPublish (initState 100) 1232 (chunkData 0)) 1233 (chunkData 1))
    1234 (chunkData 2)) 1235 (chunkData 3)) 1236 (chunkData 4)

/-- `test_resolve_conflict`: from the three published batches, three more
delta writes are all prepared against base version 4 (txn ids 1235, 1236,
1237) before any of them is published. -/
def stateStaged : TabletState :=
  deltaWrite (deltaWrite (deltaWrite state3 1235 (chunkData 0)) 1236 (chunkData 0))
    1237 (chunkData 0)

/-- First staged publish (version 4 to 5, txn 1235). -/
def conflictPub1 : StatusOr Int × TabletState :=
  publish_version stateStaged 4 5 1235

/-- Second staged publish (version 5 to 6, txn 1236). -/
def conflictPub2 : StatusOr Int × TabletState :=
  publish_version conflictPub1.2 5 6 1236

/-- Third staged publish (version 6 to 7, txn 1237). -/
def conflictPub3 : StatusOr Int × TabletState :=
  publish_version conflictPub2.2 6 7 1237

/-- Repeat `publish_version s v (v+1) txn` a number of times sequentially,
collecting every result: the per-tablet lock serializes the test's five
concurrent threads into some order, and all five use the same captured
arguments (spec section 5: publishes are linearizable under the lock). -/
def publishRepeat (s : TabletState) (v txn : Nat) : Nat → List (StatusOr Int) × TabletState
  | 0 => ([], s)
  | n + 1 =>
    let r := publish_version s v (v + 1) txn
    let rr := publishRepeat r.2 v txn n
    (r.1 :: rr.1, rr.2)

/-- One batch of `test_publish_concurrent`: write the chunk, then five
serialized calls of `publish_version` with identical arguments. -/
def concBatch (s : TabletState) (txn : Nat) (rows : List Row) :
    List (StatusOr Int) × TabletState :=
  let s1 := deltaWrite s txn rows
  publishRepeat s1 (currentVersion s1) txn 5

/-- First concurrent-publish batch. -/
def concRun1 : List (StatusOr Int) × TabletState := concBatch (initState 100) 1232 (chunkData 0)

/-- Second concurrent-publish batch. -/
def concRun2 : List (StatusOr Int) × TabletState := concBatch concRun1.2 1233 (chunkData 0)

/-- Third concurrent-publish batch. -/
def concRun3 : List (StatusOr Int) × TabletState := concBatch concRun2.2 1234 (chunkData 0)

/-- The configured block size of the cache under test
(`block_cache_test.cpp` line 27: 1024 * 1024). -/
def blockSize : Nat := 1048576

/-- Modelled from the spec: the block cache's stored state, a map from
(cache key, block index) to the cached bytes of that block; the
`BlockCache` implementation is not under `src/` (the spec treats the cache
as an external collaborator with a two-tier store behind a block-oriented
interface, spec sections 1 and 9).  Bytes are byte values as naturals. -/
abbrev CacheState := List ((String × Nat) × List Nat)

/-- Lookup the cached bytes of one block of a key. -/
def cacheLookup (st : CacheState) (key : String) (b : Nat) : Option (List Nat) :=
  match st with
  | [] => none
  | e :: rest => if e.1 = (key, b) then some e.2 else cacheLookup rest key b

/-- Insert or replace the cached bytes of one block of a key. -/
def cacheInsert (st : CacheState) (key : String) (b : Nat) (d : List Nat) : CacheState :=
  match st with
  | [] => [((key, b), d)]
  | e :: rest =>
    if e.1 = (key, b) then ((key, b), d) :: rest else e :: cacheInsert rest key b d

/-- Modelled from the spec: `write_cache(key, offset, size, data,
overwrite)` for a block-aligned write of at most one block (the only shape
the tests exercise); the implementation is not under `src/`.  A write to an
occupied block replaces it when `overwrite` is set and fails
`AlreadyExists` leaving the cache unchanged otherwise; the plain four
argument overload of the tests writes with `overwrite` set. -/
def write_cache (st : CacheState) (key : String) (off : Nat) (data : List Nat)
    (ow : Bool) : Status × CacheState :=
  if off % blockSize = 0 ∧ data.length ≤ blockSize then
    match cacheLookup st key (off / blockSize) with
    | some _ =>
      if ow then (Status.ok, cacheInsert st key (off / blockSize) data)
      else (Status.alreadyExists, st)
    | none => (Status.ok, cacheInsert st key (off / blockSize) data)
  else (Status.invalidArgument, st)

/-- Modelled from the spec: `read_cache(key, offset, size)` returns the
`size` cached bytes starting at `offset` when the containing block is
cached and covers the range, and `NotFound` otherwise; the implementation
is not under `src/`. -/
def read_cache (st : CacheState) (key : String) (off size : Nat) :
    StatusOr (List Nat) :=
  match cacheLookup st key (off / blockSize) with
  | some d =>
    if off % blockSize = 0 ∧ size ≤ d.length then StatusOr.ok (d.take size)
    else StatusOr.err Status.notFound
  | none => StatusOr.err Status.notFound

/-- Does `remove_cache(key, off, size)` drop this cache entry: same key and
the entry's block overlaps the byte range `[off, off + size)`. -/
def removedBlock (key : String) (off size : Nat)
    (e : (String × Nat) × List Nat) : Bool :=
  e.1.1 = key ∧ off / blockSize ≤ e.1.2 ∧ e.1.2 * blockSize < off + size

/-- Modelled from the spec: `remove_cache(key, offset, size)` drops every
cached block of the key overlapping the range and succeeds whether or not
anything was cached (the test removes a never-written key and gets OK);
the implementation is not under `src/`. -/
def remove_cache (st : CacheState) (key : String) (off size : Nat) :
    Status × CacheState :=
  (Status.ok, st.filter (fun e => ! removedBlock key off size e))

/-- Write a sequence of (key, bytes) pairs at offset zero with the plain
overload, collecting each status (the tests' write loops). -/
def writeSeq (st : CacheState) : List (String × List Nat) → List Status × CacheState
  | [] => ([], st)
  | p :: rest =>
    let r := write_cache st p.1 0 p.2 true
    let rr := writeSeq r.2 rest
    (r.1 :: rr.1, rr.2)

set_option maxRecDepth 40000

/-- C1: `publish_version` is idempotent and order-tolerant.  After the
tablet is published up to version 4, re-publishing (3, 4) and the older
step (2, 3) both return OK and leave the state unchanged, while the future
step (5, 6) with `base_version` greater than the current version fails
with `NotFound`, also without side effects
(`test_publish_multi_times`, spec section 4.7 steps 2 to 4). -/
theorem publish_version_idempotent_and_gap :
    currentVersion state3 = 4 ∧
    publish_version state3 3 4 1234 = (StatusOr.ok 3, state3) ∧
    publish_version state3 2 3 1234 = (StatusOr.ok 2, state3) ∧
    publish_version state3 5 6 1235 = (StatusOr.err Status.notFound, state3) ∧
    (readVersion state3 4).map List.length = some 12 := by
  decide

/-- C2: failure recovery via `handle_failure`.  After three successful
batches, running the update manager for batches 4 and 5 against cloned
metadata and invoking `handle_failure()` without finalizing, then
re-running the full publish path for both batches, yields 5 rowsets and 60
live rows, and exactly the metadata sequence of a run with no failure
(`test_write_fail_retry`). -/
theorem write_fail_retry_recovers :
    currentVersion stateRetry = 6 ∧
    stateRetry.metas = stateClean.metas ∧
    (getMeta stateRetry 6).map (fun m => m.rowsets.length) = some 5 ∧
    (readVersion stateRetry 6).map List.length = some 60 := by
  decide

/-- C3: overwrite convergence.  Publishing the same 12 keys three times
(versions 1 to 4) leaves exactly 12 live rows at version 4 with pairwise
distinct primary keys, the version-4 metadata lists 3 rowsets, and the PK
index cache reference count is 1 at teardown
(`test_write_multitime_check_result`). -/
theorem write_multitime_overwrite_converges :
    (readVersion state3 4).map List.length = some 12 ∧
    (((readVersion state3 4).getD []).map Row.key).Nodup ∧
    (getMeta state3 4).map (fun m => m.rowsets.length) = some 3 ∧
    pkCacheRef state3 = 1 := by
  decide

/-- C4: conflict resolution across pre-staged writes.  After three
published batches, three more delta writes staged against base version 4
and published one at a time in txn-id order all succeed, and the final
state reads 12 rows at version 7 with 6 rowsets in its metadata
(`test_resolve_conflict`). -/
theorem resolve_conflict_staged_publishes :
    isOk conflictPub1.1 = true ∧ isOk conflictPub2.1 = true ∧
    isOk conflictPub3.1 = true ∧
    (readVersion conflictPub3.2 7).map List.length = some 12 ∧
    (getMeta conflictPub3.2 7).map (fun m => m.rowsets.length) = some 6 := by
  decide

/-- C5: single write round-trip.  Writing one chunk with keys 1..22 and
values `2*k` except 21 and 22, publishing version 1 to 2, makes reading at
version 2 return exactly the 22 inserted pairs in ascending key order
(`test_write_read_success`). -/
theorem write_read_success_roundtrip :
    isOk state22.1 = true ∧
    readVersion state22.2 2 = some chunk22 ∧
    chunk22.length = 22 ∧
    sortedStrict (chunk22.map Row.key) = true := by
  decide

/-- C6: concurrent publish linearizability, modelled as the per-tablet
lock's serialization (spec section 5): for each of the three batches, five
serialized calls of `publish_version` with identical arguments all return
OK, the final version is 4 with 12 live rows and 3 rowsets, and the final
state coincides with the one-publish-per-batch run, so exactly one new
version is produced per batch (`test_publish_concurrent`). -/
theorem publish_concurrent_one_version :
    ((concRun1.1 ++ concRun2.1 ++ concRun3.1).all isOk) = true ∧
    concRun1.1.length = 5 ∧ concRun2.1.length = 5 ∧ concRun3.1.length = 5 ∧
    currentVersion concRun3.2 = 4 ∧
    concRun3.2 = state3 ∧
    (readVersion concRun3.2 4).map List.length = some 12 ∧
    (getMeta concRun3.2 4).map (fun m => m.rowsets.length) = some 3 := by
  decide

/-- Every per-rowset score contribution is nonnegative. -/
theorem rowsetScore_nonneg (rs : Rowset) : 0 ≤ rowsetScore rs := by
  unfold rowsetScore
  split
  · exact Int.natCast_nonneg _
  · norm_num

/-- The compaction score of any metadata snapshot is nonnegative. -/
theorem compactionScore_nonneg (m : TabletMetadata) : 0 ≤ compactionScore m := by
  unfold compactionScore
  apply List.sum_nonneg
  intro x hx
  obtain ⟨rs, _, rfl⟩ := List.mem_map.mp hx
  exact rowsetScore_nonneg rs

/-- A successful fresh publish returns the compaction score of the new
snapshot. -/
theorem doPublish_fst (s : TabletState) (bm : TabletMetadata) (op : OpWrite)
    (nv t : Nat) :
    (doPublish s bm op nv t).1 = StatusOr.ok (compactionScore (doPublishMeta s bm op nv)) := rfl

/-- Whenever `publish_version` succeeds, the returned score is
nonnegative. -/
theorem publish_ok_score_nonneg (s : TabletState) (b nv t : Nat) (sc : Int)
    (h : (publish_version s b nv t).1 = StatusOr.ok sc) : 0 ≤ sc := by
  unfold publish_version at h
  split at h
  · split at h
    · split at h
      · simp only [StatusOr.ok.injEq] at h
        subst h
        apply compactionScore_nonneg
      · simp at h
    · split at h
      · simp at h
      · split at h
        · rw [doPublish_fst] at h
          simp only [StatusOr.ok.injEq] at h
          subst h
          apply compactionScore_nonneg
        · simp at h
  · simp at h

/-- C7: compaction score postcondition.  Every successful
`publish_version` returns a score at least 0, and the single-write publish
of one rowset onto the empty tablet (version 1 to 2) returns a strictly
positive score (spec section 4.7 step 8; `test_write_read_success` lines
229 to 230). -/
theorem publish_compaction_score_postcondition :
    (∀ s b nv t sc, (publish_version s b nv t).1 = StatusOr.ok sc → 0 ≤ sc) ∧
    (∃ sc, state22.1 = StatusOr.ok sc ∧ 0 < sc) := by
  constructor
  · intro s b nv t sc h
    exact publish_ok_score_nonneg s b nv t sc h
  · exact ⟨1, by decide, by norm_num⟩

/-- Witness for C7: the theorem applied to the duplicate publish of the
three-batch state, whose score evaluates to 3. -/
theorem publish_compaction_score_postcondition_witness : (0 : Int) ≤ 3 :=
  publish_compaction_score_postcondition.1 state3 3 4 1234 3 (by decide)

/-- A block-aligned write of at most one block with the overwrite flag set
always succeeds. -/
theorem write_cache_overwrite_ok (st : CacheState) (k : String) (d : List Nat)
    (hd : d.length ≤ blockSize) : (write_cache st k 0 d true).1 = Status.ok := by
  unfold write_cache
  rw [if_pos ⟨Nat.zero_mod _, hd⟩]
  split <;> rfl

/-- A block-aligned write of at most one block with the overwrite flag set
stores the bytes at the target block. -/
theorem write_cache_overwrite_state (st : CacheState) (k : String) (d : List Nat)
    (hd : d.length ≤ blockSize) :
    (write_cache st k 0 d true).2 = cacheInsert st k 0 d := by
  unfold write_cache
  rw [if_pos ⟨Nat.zero_mod _, hd⟩]
  rw [Nat.zero_div]
  split <;> rfl

/-- Looking up the block just inserted returns the inserted bytes. -/
theorem cacheLookup_insert (st : CacheState) (k : String) (b : Nat) (d : List Nat) :
    cacheLookup (cacheInsert st k b d) k b = some d := by
  induction st with
  | nil => simp [cacheInsert, cacheLookup]
  | cons e rest ih =>
    by_cases he : e.1 = (k, b)
    · simp [cacheInsert, he, cacheLookup]
    · simp only [cacheInsert]
      rw [if_neg he]
      simp only [cacheLookup]
      rw [if_neg he]
      exact ih

/-- Inserting one block leaves every other (key, block) lookup unchanged. -/
theorem cacheLookup_insert_ne (st : CacheState) (k k2 : String) (b b2 : Nat)
    (d : List Nat) (h : ¬ (k, b) = (k2, b2)) :
    cacheLookup (cacheInsert st k2 b2 d) k b = cacheLookup st k b := by
  induction st with
  | nil =>
    simp only [cacheInsert, cacheLookup]
    rw [if_neg (fun hc => h hc.symm)]
  | cons e rest ih =>
    by_cases he : e.1 = (k2, b2)
    · simp only [cacheInsert]
      rw [if_pos he]
      simp only [cacheLookup]
      rw [if_neg (fun hc => h hc.symm), if_neg (fun hc : e.1 = (k, b) => h (he ▸ hc).symm)]
    · simp only [cacheInsert]
      rw [if_neg he]
      simp only [cacheLookup]
      by_cases hek : e.1 = (k, b)
      · rw [if_pos hek, if_pos hek]
      · rw [if_neg hek, if_neg hek]
        exact ih

/-- A write to one key leaves every lookup of a different key unchanged. -/
theorem cacheLookup_write_ne (st : CacheState) (k k2 : String) (b off : Nat)
    (d : List Nat) (ow : Bool) (h : ¬ k = k2) :
    cacheLookup (write_cache st k2 off d ow).2 k b = cacheLookup st k b := by
  have hp : ¬ (k, b) = (k2, off / blockSize) := by
    intro hc
    exact h (congrArg Prod.fst hc)
  unfold write_cache
  split
  · split
    · split
      · exact cacheLookup_insert_ne st k k2 b (off / blockSize) d hp
      · rfl
    · exact cacheLookup_insert_ne st k k2 b (off / blockSize) d hp
  · rfl

/-- Reading right after a successful aligned write returns the written
bytes. -/
theorem read_after_write (st : CacheState) (k : String) (d : List Nat)
    (hd : d.length ≤ blockSize) :
    read_cache (write_cache st k 0 d true).2 k 0 d.length = StatusOr.ok d := by
  rw [write_cache_overwrite_state st k d hd]
  unfold read_cache
  rw [Nat.zero_div, cacheLookup_insert]
  simp

/-- Reads depend only on the lookup of the addressed block. -/
theorem read_cache_congr (st st2 : CacheState) (k : String) (off size : Nat)
    (h : cacheLookup st k (off / blockSize) = cacheLookup st2 k (off / blockSize)) :
    read_cache st k off size = read_cache st2 k off size := by
  unfold read_cache
  rw [h]

/-- A sequence of writes to keys other than `k` leaves `k`'s lookups
unchanged. -/
theorem cacheLookup_writeSeq_notmem (ps : List (String × List Nat))
    (st : CacheState) (k : String) (b : Nat) (h : ¬ k ∈ ps.map Prod.fst) :
    cacheLookup (writeSeq st ps).2 k b = cacheLookup st k b := by
  induction ps generalizing st with
  | nil => rfl
  | cons q rest ih =>
    rw [List.map_cons, List.mem_cons] at h
    push_neg at h
    show cacheLookup (writeSeq (write_cache st q.1 0 q.2 true).2 rest).2 k b = _
    rw [ih _ h.2, cacheLookup_write_ne st k q.1 b 0 q.2 true h.1]

/-- C8: block cache write/read round-trip.  Writing any sequence of
distinct keys, each with a byte string of length at most the configured
block size, succeeds for every write, and a subsequent `read_cache` of any
of the keys at offset 0 with the written size returns exactly the written
bytes (`hybrid_cache` and `auto_create_disk_cache_path` write/read loops;
the cache operations are modelled from the spec). -/
theorem block_cache_write_read_roundtrip (st : CacheState)
    (ps : List (String × List Nat))
    (hnd : (ps.map Prod.fst).Nodup)
    (hlen : ∀ p ∈ ps, p.2.length ≤ blockSize) :
    ((writeSeq st ps).1.all (fun t => t = Status.ok)) = true ∧
    ∀ p ∈ ps, read_cache (writeSeq st ps).2 p.1 0 p.2.length = StatusOr.ok p.2 := by
  induction ps generalizing st with
  | nil =>
    refine ⟨rfl, ?_⟩
    intro p hp
    cases hp
  | cons q rest ih =>
    rw [List.map_cons, List.nodup_cons] at hnd
    have hq : q.2.length ≤ blockSize := hlen q (List.mem_cons_self _ _)
    have hlenr : ∀ p ∈ rest, p.2.length ≤ blockSize :=
      fun p hp => hlen p (List.mem_cons_of_mem _ hp)
    have ihr := ih (write_cache st q.1 0 q.2 true).2 hnd.2 hlenr
    constructor
    · show ((write_cache st q.1 0 q.2 true).1 :: (writeSeq _ rest).1).all _ = true
      rw [List.all_cons, write_cache_overwrite_ok st q.1 q.2 hq, ihr.1]
      rfl
    · intro p hp
      rcases List.mem_cons.mp hp with hpq | hp2
      · subst hpq
        show read_cache (writeSeq (write_cache st p.1 0 p.2 true).2 rest).2 p.1 0 p.2.length = _
        rw [read_cache_congr _ (write_cache st p.1 0 p.2 true).2 p.1 0 p.2.length
          (cacheLookup_writeSeq_notmem rest _ p.1 _ hnd.1)]
        exact read_after_write st p.1 p.2 hq
      · exact ihr.2 p hp2

/-- Witness for C8: two distinct keys written in sequence into the empty
cache; reading the second returns its bytes. -/
theorem block_cache_write_read_roundtrip_witness :
    read_cache (writeSeq [] [("a", [1, 2]), ("b", [3])]).2 "b" 0 1 = StatusOr.ok [3] :=
  (block_cache_write_read_roundtrip [] [("a", [1, 2]), ("b", [3])]
    (by decide) (by decide)).2 ("b", [3]) (by decide)

/-- A write with the overwrite flag clear on an occupied block fails with
`AlreadyExists` and leaves the cache untouched. -/
theorem write_cache_no_overwrite_fails (st : CacheState) (k : String)
    (d dnew : List Nat) (hex : cacheLookup st k 0 = some d)
    (hlen : dnew.length ≤ blockSize) :
    write_cache st k 0 dnew false = (Status.alreadyExists, st) := by
  unfold write_cache
  rw [if_pos ⟨Nat.zero_mod _, hlen⟩, Nat.zero_div, hex]
  rfl

/-- An occupied block reads back its stored bytes in full. -/
theorem read_cache_of_lookup (st : CacheState) (k : String) (d : List Nat)
    (hex : cacheLookup st k 0 = some d) :
    read_cache st k 0 d.length = StatusOr.ok d := by
  unfold read_cache
  rw [Nat.zero_div, hex]
  simp

/-- C9: block cache overwrite flag semantics.  On a key whose block is
already cached, a write with the overwrite flag set succeeds and a
subsequent read returns the new bytes, while a write with the flag clear
fails with `AlreadyExists`, leaves the cache unchanged, and the old bytes
remain readable (`write_with_overwrite_option`; the cache operations are
modelled from the spec). -/
theorem block_cache_overwrite_flag (st : CacheState) (k : String)
    (d dnew : List Nat) (hex : cacheLookup st k 0 = some d)
    (hlen : dnew.length ≤ blockSize) :
    ((write_cache st k 0 dnew true).1 = Status.ok ∧
     read_cache (write_cache st k 0 dnew true).2 k 0 dnew.length = StatusOr.ok dnew) ∧
    ((write_cache st k 0 dnew false).1 = Status.alreadyExists ∧
     (write_cache st k 0 dnew false).2 = st ∧
     read_cache (write_cache st k 0 dnew false).2 k 0 d.length = StatusOr.ok d) := by
  refine ⟨⟨write_cache_overwrite_ok st k dnew hlen, read_after_write st k dnew hlen⟩, ?_, ?_, ?_⟩
  · rw [write_cache_no_overwrite_fails st k d dnew hex hlen]
  · rw [write_cache_no_overwrite_fails st k d dnew hex hlen]
  · rw [write_cache_no_overwrite_fails st k d dnew hex hlen]
    exact read_cache_of_lookup st k d hex

/-- Witness for C9: a one-entry cache holding bytes [5] under key "g";
overwriting with flag clear fails with `AlreadyExists`. -/
theorem block_cache_overwrite_flag_witness :
    (write_cache [(("g", 0), [5])] "g" 0 [9] false).1 = Status.alreadyExists :=
  ((block_cache_overwrite_flag [(("g", 0), [5])] "g" [5] [9]
    (by decide) (by decide)).2).1

/-- After `remove_cache(key, off, size)` with a positive size and aligned
offset, the block containing `off` is gone for that key. -/
theorem cacheLookup_remove_none (st : CacheState) (k : String) (off size : Nat)
    (hs : 0 < size) (hoff : off % blockSize = 0) :
    cacheLookup (remove_cache st k off size).2 k (off / blockSize) = none := by
  have hob : off / blockSize * blockSize = off :=
    Nat.div_mul_cancel (Nat.dvd_of_mod_eq_zero hoff)
  induction st with
  | nil => rfl
  | cons e rest ih =>
    show cacheLookup (List.filter (fun e2 => ! removedBlock k off size e2) (e :: rest))
      k (off / blockSize) = none
    rw [List.filter_cons]
    by_cases he : e.1 = (k, off / blockSize)
    · have hrm : removedBlock k off size e = true := by
        unfold removedBlock
        rw [decide_eq_true_eq, he]
        exact ⟨rfl, le_refl _, by rw [hob]; exact Nat.lt_add_of_pos_right hs⟩
      rw [if_neg (by simp [hrm])]
      exact ih
    · by_cases hrm2 : removedBlock k off size e = true
      · rw [if_neg (by simp [hrm2])]
        exact ih
      · rw [if_pos (by simp [Bool.of_not_eq_true hrm2])]
        show (if e.1 = (k, off / blockSize) then some e.2
          else cacheLookup (List.filter (fun e2 => ! removedBlock k off size e2) rest)
            k (off / blockSize)) = none
        rw [if_neg he]
        exact ih

/-- C10: NotFound on missing data.  After a successful
`remove_cache(key, off, size)` with aligned offset and positive size, a
read of that same range returns `NotFound`; and a read of any block that
was never written for a key returns `NotFound` (`hybrid_cache` lines 94 to
104; the cache operations are modelled from the spec). -/
theorem block_cache_missing_not_found (st : CacheState) (k : String)
    (off size : Nat) (hs : 0 < size) (hoff : off % blockSize = 0) :
    ((remove_cache st k off size).1 = Status.ok ∧
     read_cache (remove_cache st k off size).2 k off size = StatusOr.err Status.notFound) ∧
    (∀ st2 k2 off2 size2, cacheLookup st2 k2 (off2 / blockSize) = none →
      read_cache st2 k2 off2 size2 = StatusOr.err Status.notFound) := by
  refine ⟨⟨rfl, ?_⟩, ?_⟩
  · unfold read_cache
    rw [cacheLookup_remove_none st k off size hs hoff]
  · intro st2 k2 off2 size2 hnone
    unfold read_cache
    rw [hnone]

/-- Witness for C10: removing the only cached block of key "f" makes the
subsequent read of the same range return `NotFound`. -/
theorem block_cache_missing_not_found_witness :
    read_cache (remove_cache [(("f", 0), [7, 8])] "f" 0 2).2 "f" 0 2 =
      StatusOr.err Status.notFound :=
  (block_cache_missing_not_found [(("f", 0), [7, 8])] "f" 0 2
    (by decide) (by decide)).1.2
